import Mathlib

/-!
Shallow embedding of the EDT scheduling front-end's optimistic
concurrency / conflict-resolution layer, translated from:
  src/hooks/useSchedule.ts        (repository + optimistic mutation coordinator)
  src/api/commandsApi.ts          (command and response shapes)
  src/api/timetableApi.ts         (isOnlineSession / TEAMS sentinel)
  src/components/ScheduleGrid.tsx (main-grid drop handler)
  src/components/VirtualScheduleGrid.tsx (virtual-grid drop handler)
  src/pages/VirtualTimetable.tsx  (buildVirtualFromRequests reconciler)
-/

namespace EDT

/-- A scheduled session, from `src/types` (fields as used throughout the code). -/
structure Session where
  id : String
  formateur : String
  groupe : String
  module : String
  jour : String
  creneau : Nat
  salle : String
deriving DecidableEq, Repr

/-- A grid cell, `Cell = { day, slot }`. -/
structure Cell where
  day : String
  slot : Nat
deriving DecidableEq, Repr

/-- `applyMoveLocal` from src/hooks/useSchedule.ts:
`sessions.map(s => s.id === sessionId ? { ...s, jour, creneau, salle } : s)`. -/
def applyMoveLocal (sessions : List Session) (sessionId : String)
    (toJour : String) (toCreneau : Nat) (toSalle : String) : List Session :=
  sessions.map (fun s =>
    if s.id = sessionId then { s with jour := toJour, creneau := toCreneau, salle := toSalle }
    else s)

/-- `applyDeleteLocal` from src/hooks/useSchedule.ts:
`sessions.filter(s => s.id !== sessionId)`. -/
def applyDeleteLocal (sessions : List Session) (sessionId : String) : List Session :=
  sessions.filter (fun s => s.id ≠ sessionId)

/-- The per-session predicate inside `hasConflict` (src/hooks/useSchedule.ts,
body of `sessions.find(...)`).  `expand` is `opts.expandGroupIds` and
`isVirtual` is `opts.isVirtualRoom`. -/
def conflictsWith (expand : String → List String) (isVirtual : String → Bool)
    (session : Session) (targetCell : Cell) (s : Session) : Bool :=
  if s.id = session.id then false
  else if s.jour ≠ targetCell.day ∨ s.creneau ≠ targetCell.slot then false
  else
    let sameRoom := s.salle == session.salle
      && !isVirtual session.salle && !isVirtual s.salle
    let sameTeacher := s.formateur == session.formateur
    let groupsA := expand session.groupe
    let groupsB := expand s.groupe
    let sameGroup := groupsA.any (fun g => groupsB.contains g)
    sameRoom || sameTeacher || sameGroup

/-- `hasConflict` from src/hooks/useSchedule.ts: first matching session in
list order, or `null` (here `none`). -/
def hasConflict (expand : String → List String) (isVirtual : String → Bool)
    (sessions : List Session) (session : Session) (targetCell : Cell) : Option Session :=
  sessions.find? (conflictsWith expand isVirtual session targetCell)

/-! ### Command dispatcher shapes (src/api/commandsApi.ts) -/

/-- Payload of a `MOVE_SESSION` command. -/
structure MoveArgs where
  sessionId : String
  toJour : String
  toCreneau : Nat
  toSalle : String
deriving DecidableEq, Repr

/-- A timetable command (`MoveCommand` / `DeleteCommand`). -/
inductive Command where
  | move (commandId : String) (expectedVersion : Nat) (payload : MoveArgs)
  | delete (commandId : String) (expectedVersion : Nat) (sessionId : String)
deriving DecidableEq, Repr

/-- `CommandError`: the parsed body attached to a rejected dispatch
(`e.body`).  `message`, `version`, `serverVersion` are optional in the
wire format. -/
structure ErrorBody where
  ok : Bool
  code : String
  message : Option String
  details : Option String
  version : Option Nat
  serverVersion : Option Nat
deriving DecidableEq, Repr

/-- Result of awaiting `sendTimetableCommand`: either the success body, or a
thrown exception `e` with optional parsed body `e.body` and optional
`e.message`. -/
inductive DispatchOutcome where
  | success (sessions : List Session) (version : Nat) (warnings : List String)
  | thrown (body : Option ErrorBody) (message : Option String)
deriving DecidableEq, Repr

/-! ### Optimistic mutation coordinator (src/hooks/useSchedule.ts)

`moveSessionDnD` / `deleteSession` are embedded as pure functions from the
hook's state and the dispatch outcome to the ordered trace of effects the
handler performs (`setSessions` / `setVersion` calls, the single command
dispatch, and the `fetchData()` re-fetch marker) plus the returned value. -/

/-- The client-visible hook state: `sessions` / `version` pair. -/
structure ScheduleState where
  sessions : List Session
  version : Nat
deriving DecidableEq, Repr

/-- One effect performed by a coordinator handler, in program order.
`refetchData` marks an `await fetchData()` call, i.e. a fresh
`GET /api/timetable` whose authoritative result is applied outside the
handler itself. -/
inductive Effect where
  | setSessionsFx (s : List Session)
  | setVersionFx (v : Nat)
  | dispatchFx (c : Command)
  | refetchData
deriving DecidableEq, Repr

/-- JS `a || b` on an optional string: empty string and absence both fall
through to the default. -/
def jsOrStr (a : Option String) (b : String) : String :=
  match a with
  | some s => if s = "" then b else s
  | none => b

/-- Return value of `moveSessionDnD` / `deleteSession`:
`{ok: true}` or `{ok: false, error}`. -/
structure ActionReturn where
  ok : Bool
  error : Option String
deriving DecidableEq, Repr

/-- `moveSessionDnD` from src/hooks/useSchedule.ts, as effect trace + return.
`cid` is the fresh `newCommandId()`; `outcome` is what awaiting
`sendTimetableCommand` produced. -/
def moveSessionDnD (st : ScheduleState) (cid : String) (args : MoveArgs)
    (outcome : DispatchOutcome) : List Effect × ActionReturn :=
  let prevSessions := st.sessions
  let prevVersion := st.version
  let optimistic := Effect.setSessionsFx
    (applyMoveLocal prevSessions args.sessionId args.toJour args.toCreneau args.toSalle)
  let cmd := Command.move cid prevVersion args
  match outcome with
  | .success resSessions resVersion _ =>
      ([optimistic, .dispatchFx cmd, .setSessionsFx resSessions, .setVersionFx resVersion],
       { ok := true, error := none })
  | .thrown body msg =>
      let rollback := Effect.setSessionsFx prevSessions
      match body with
      | some b =>
        if b.ok = false then
          (([optimistic, .dispatchFx cmd, rollback]
              ++ if b.code = "VERSION_MISMATCH" then [Effect.refetchData] else []),
           { ok := false, error := some (jsOrStr b.message "Action refusée") })
        else
          ([optimistic, .dispatchFx cmd, rollback],
           { ok := false, error := some (msg.getD "Erreur réseau") })
      | none =>
          ([optimistic, .dispatchFx cmd, rollback],
           { ok := false, error := some (msg.getD "Erreur réseau") })

/-- `deleteSession` from src/hooks/useSchedule.ts, as effect trace + return.
Note the source re-fetches on `e?.body?.code === "VERSION_MISMATCH"`
without re-checking `body.ok`. -/
def deleteSessionDnD (st : ScheduleState) (cid : String) (sessionId : String)
    (outcome : DispatchOutcome) : List Effect × ActionReturn :=
  let optimistic := Effect.setSessionsFx (applyDeleteLocal st.sessions sessionId)
  let cmd := Command.delete cid st.version sessionId
  match outcome with
  | .success resSessions resVersion _ =>
      ([optimistic, .dispatchFx cmd, .setSessionsFx resSessions, .setVersionFx resVersion],
       { ok := true, error := none })
  | .thrown body msg =>
      let m := jsOrStr (body.bind (fun b => b.message)) (jsOrStr msg "Suppression refusée.")
      let refetch : Bool := match body with
        | some b => b.code == "VERSION_MISMATCH"
        | none => false
      (([optimistic, .dispatchFx cmd, .setSessionsFx st.sessions]
          ++ if refetch then [Effect.refetchData] else []),
       { ok := false, error := some m })

/-- Replay the handler's own state updates.  `dispatchFx` is a network send
and `refetchData` applies externally fetched data, so neither changes the
state here. -/
def applyEffect (st : ScheduleState) : Effect → ScheduleState
  | .setSessionsFx s => { st with sessions := s }
  | .setVersionFx v => { st with version := v }
  | .dispatchFx _ => st
  | .refetchData => st

/-- Fold a trace of effects over a state. -/
def applyEffects (st : ScheduleState) (fx : List Effect) : ScheduleState :=
  fx.foldl applyEffect st

/-- Number of commands sent over the wire in a trace. -/
def dispatchCount (fx : List Effect) : Nat :=
  (fx.filter (fun e => match e with | .dispatchFx _ => true | _ => false)).length

/-- Whether the trace triggers the authoritative `fetchData()` re-fetch. -/
def refetchIssued (fx : List Effect) : Bool :=
  fx.any (fun e => match e with | .refetchData => true | _ => false)

/-! ### Drop handlers (ScheduleGrid.tsx and VirtualScheduleGrid.tsx)

Each drop handler is embedded as a pure decision function.  The
`hasConflict` prop is passed as an oracle (the grids receive it from the
hook); the result of `getAvailableRooms` is passed as a parameter, so that
"no availability query is made" becomes "the decision is the same for
every possible query result". -/

/-- JS `String.prototype.toUpperCase`, modelled character-wise (the ids in
this code base are ASCII). -/
def jsToUpper (s : String) : String := String.mk (s.data.map Char.toUpper)

/-- `TEAMS_ROOM_ID` from src/api/timetableApi.ts. -/
def TEAMS_ROOM_ID : String := "TEAMS"

/-- `isOnlineSession` from src/api/timetableApi.ts:
`(session?.salle ?? "").toUpperCase() === "TEAMS"`. -/
def isOnlineSession (s : Session) : Bool :=
  jsToUpper s.salle == TEAMS_ROOM_ID

/-- The response of `getAvailableRooms`; `availableRooms` may be absent
(the handlers apply `?? []`). -/
structure RoomsResponse where
  availableRooms : Option (List String)
deriving DecidableEq, Repr

/-- What a drop handler ends up doing. -/
inductive DropAction where
  | noop
  | abortTeacherBusy
  | abortGroupBusy
  | abortNoRoom
  | directMove (jour : String) (creneau : Nat) (salle : String)
  | promptRooms (rooms : List String)
  | apiError
deriving DecidableEq, Repr

/-- `handleDrop` of src/components/ScheduleGrid.tsx (main grid).
`roomsApi` is the result of `getAvailableRooms(day, slot)`:
`Except.error` models the thrown/caught case. -/
def scheduleGridDrop (isLoading readOnly : Bool)
    (conflictCheck : Session → Cell → Option Session)
    (roomsApi : Except String RoomsResponse)
    (session : Session) (day : String) (slot : Nat) : DropAction :=
  if isLoading then .noop
  else if readOnly then .noop
  else if session.jour == day && session.creneau == slot then .noop
  else
    let dest : Cell := { day := day, slot := slot }
    let conflict := conflictCheck session dest
    let aborted : Option DropAction :=
      match conflict with
      | some c =>
          let sameTeacher := c.formateur == session.formateur
          let sameGroup := c.groupe == session.groupe
          if sameTeacher then some .abortTeacherBusy
          else if sameGroup then some .abortGroupBusy
          else none
      | none => none
    match aborted with
    | some a => a
    | none =>
      if isOnlineSession session then
        .directMove day slot session.salle
      else
        match roomsApi with
        | .error _ => .apiError
        | .ok api =>
          let freeRooms := api.availableRooms.getD []
          if freeRooms.length = 0 then .abortNoRoom
          else if freeRooms.contains session.salle then .directMove day slot session.salle
          else .promptRooms freeRooms

/-- `handleDrop` of src/components/VirtualScheduleGrid.tsx (virtual grid).
Differences from the main grid, per source: no `readOnly` / same-cell
guards, online sessions are rejected outright before the precheck, and a
direct move additionally requires `!conflict`. -/
def virtualScheduleGridDrop (isLoading : Bool)
    (conflictCheck : Session → Cell → Option Session)
    (roomsApi : Except String RoomsResponse)
    (session : Session) (toDay : String) (toSlot : Nat) : DropAction :=
  if isLoading then .noop
  else if isOnlineSession session then .noop
  else
    let conflict := conflictCheck session { day := toDay, slot := toSlot }
    let aborted : Option DropAction :=
      match conflict with
      | some c =>
          let sameTeacher := c.formateur == session.formateur
          let sameGroup := c.groupe == session.groupe
          if sameTeacher then some .abortTeacherBusy
          else if sameGroup then some .abortGroupBusy
          else none
      | none => none
    match aborted with
    | some a => a
    | none =>
      match roomsApi with
      | .error _ => .apiError
      | .ok api =>
        let freeRooms := api.availableRooms.getD []
        if freeRooms.length = 0 then .abortNoRoom
        else if freeRooms.contains session.salle && conflict.isNone then
          .directMove toDay toSlot session.salle
        else .promptRooms freeRooms

/-! ### Virtual (draft) timetable reconciler
(`buildVirtualFromRequests`, src/pages/VirtualTimetable.tsx) -/

/-- `_virtualState` tags. -/
inductive VirtState where
  | TO_DELETE
  | MOVED_AWAY
  | PROPOSED_DESTINATION
  | INSERTED
deriving DecidableEq, Repr

/-- A base-list entry: the session plus the `_virtualState` /
`_virtualRequestId` fields the reconciler may attach. -/
structure TaggedSession where
  session : Session
  virtualState : Option VirtState
  virtualRequestId : Option String
deriving DecidableEq, Repr

/-- The session-shaped portion of a change request's `oldData` / `newData`
(loose objects; every field may be absent). -/
structure ChangeData where
  jour : Option String
  creneau : Option Nat
  salle : Option String
  formateur : Option String
  groupe : Option String
  module : Option String
deriving DecidableEq, Repr

/-- A change request as consumed by the reconciler.  `type` is kept as the
raw string the code uppercases; `sessionId` is `String(r.sessionId ?? "")`. -/
structure ChangeRequest where
  id : String
  type : String
  sessionId : String
  oldData : ChangeData
  newData : ChangeData
deriving DecidableEq, Repr

/-- An `extra` entry pushed by the reconciler.  Optional fields model the
degenerate JS values (`String(undefined)` / `NaN`) produced when neither
the request data nor a base session supplies the field: those arise only
when the referenced base session is missing, a path no claim exercises. -/
structure Ghost where
  id : String
  jour : Option String
  creneau : Option Nat
  salle : Option String
  formateur : Option String
  groupe : Option String
  module : Option String
  virtualState : VirtState
  virtualRequestId : String
deriving DecidableEq, Repr

/-- Tag every base entry whose session id matches (the source tags the
object registered under that id in its `byId` map; ids are unique in a
timetable, so on distinct-id lists this is the same operation). -/
def tagBase (base : List TaggedSession) (sessionId : String) (vs : VirtState)
    (reqId : String) : List TaggedSession :=
  base.map (fun ts =>
    if ts.session.id == sessionId
    then { ts with virtualState := some vs, virtualRequestId := some reqId }
    else ts)

/-- The body of the `for (const r of requests)` loop in
`buildVirtualFromRequests`. -/
def applyRequest (acc : List TaggedSession × List Ghost) (r : ChangeRequest) :
    List TaggedSession × List Ghost :=
  let base := acc.1
  let extra := acc.2
  let t := jsToUpper r.type
  if t == "DELETE" then
    (tagBase base r.sessionId .TO_DELETE r.id, extra)
  else if t == "INSERT" then
    (base, extra ++ [{
      id := if r.sessionId == "" then "ghost:" ++ r.id else r.sessionId
      jour := r.newData.jour
      creneau := r.newData.creneau
      salle := r.newData.salle
      formateur := r.newData.formateur
      groupe := r.newData.groupe
      module := r.newData.module
      virtualState := .INSERTED
      virtualRequestId := r.id }])
  else if t == "MOVE" || t == "CHANGE_ROOM" then
    let sFound := (base.find? (fun ts => ts.session.id == r.sessionId)).map
      (fun ts => ts.session)
    let isCR := t == "CHANGE_ROOM"
    -- spread `{...s, ...oldData, salle: newData?.salle}` (CHANGE_ROOM) or
    -- `{...s, ...oldData, ...newData}` (MOVE); jour/creneau/salle are then
    -- overridden by the common `newData ?? oldData ?? s` chain.
    let g : Ghost := {
      id := r.sessionId
      jour := r.newData.jour <|> r.oldData.jour <|> sFound.map (fun s => s.jour)
      creneau := r.newData.creneau <|> r.oldData.creneau <|> sFound.map (fun s => s.creneau)
      salle := r.newData.salle <|> r.oldData.salle <|> sFound.map (fun s => s.salle)
      formateur := (if isCR then none else r.newData.formateur)
        <|> r.oldData.formateur <|> sFound.map (fun s => s.formateur)
      groupe := (if isCR then none else r.newData.groupe)
        <|> r.oldData.groupe <|> sFound.map (fun s => s.groupe)
      module := (if isCR then none else r.newData.module)
        <|> r.oldData.module <|> sFound.map (fun s => s.module)
      virtualState := .PROPOSED_DESTINATION
      virtualRequestId := r.id }
    (tagBase base r.sessionId .MOVED_AWAY r.id, extra ++ [g])
  else
    (base, extra)

/-- `buildVirtualFromRequests(official, requests)` returning `{base, extra}`. -/
def buildVirtualFromRequests (official : List Session) (requests : List ChangeRequest) :
    List TaggedSession × List Ghost :=
  requests.foldl applyRequest
    (official.map (fun s => { session := s, virtualState := none, virtualRequestId := none }), [])

/-- The teacher/group precheck outcome on a conflict-check result: either
no conflict, or the conflicting session matches neither the candidate's
teacher nor (literally) its group, so the handler falls through to room
resolution. -/
def teacherGroupPass (conflict : Option Session) (session : Session) : Prop :=
  ∀ c, conflict = some c → c.formateur ≠ session.formateur ∧ c.groupe ≠ session.groupe

/-! ### Concrete fixtures (used by witnesses and counterexamples) -/

/-- Default group expansion (`opts.expandGroupIds ?? ((g) => [g])`). -/
def expandId : String → List String := fun g => [g]

/-- A fusion catalog mapping the fused online group `FAB` to `[G1, G2]`
(`expandGroupIds` derived from `catalog.onlineFusions`). -/
def expandFus : String → List String := fun g => if g == "FAB" then ["G1", "G2"] else [g]

/-- `opts.isVirtualRoom ?? (() => false)`. -/
def isVirtNever : String → Bool := fun _ => false

/-- Candidate session carrying the fused group id `FAB`. -/
def exCand : Session :=
  { id := "S1", formateur := "T1", groupe := "FAB", module := "M1",
    jour := "lundi", creneau := 1, salle := "R1" }

/-- Session at (mardi, 1) whose literal group `G1` is a member of `FAB`,
with a different teacher and a different physical room. -/
def exOther : Session :=
  { id := "S2", formateur := "T2", groupe := "G1", module := "M2",
    jour := "mardi", creneau := 1, salle := "R2" }

/-- Session list for the fusion scenario. -/
def exSessionsFus : List Session := [exCand, exOther]

/-- Candidate session with a plain group. -/
def exCand2 : Session :=
  { id := "S1", formateur := "T1", groupe := "G1", module := "M1",
    jour := "lundi", creneau := 1, salle := "R1" }

/-- Session occupying room `R1` at (mardi, 2): a room-only conflict for
`exCand2` there (different teacher, different group). -/
def exOcc : Session :=
  { id := "S2", formateur := "T2", groupe := "G2", module := "M2",
    jour := "mardi", creneau := 2, salle := "R1" }

/-- Session list for the room-only-conflict scenario. -/
def exSessions2 : List Session := [exCand2, exOcc]

/-- An online (TEAMS) session. -/
def exTeams : Session :=
  { id := "S9", formateur := "T1", groupe := "G1", module := "M1",
    jour := "lundi", creneau := 1, salle := "TEAMS" }

/-- A hook state before an optimistic move. -/
def exSt : ScheduleState := { sessions := [exCand2], version := 1 }

/-- Arguments of a concrete move. -/
def exArgs : MoveArgs := { sessionId := "S1", toJour := "mardi", toCreneau := 2, toSalle := "R2" }

/-- A non-version informative rejection body that carries a server version. -/
def exBodyConflict : ErrorBody :=
  { ok := false, code := "CONFLICT", message := some "Conflit",
    details := none, version := some 5, serverVersion := some 5 }

/-- A version-mismatch rejection body. -/
def exBodyVM : ErrorBody :=
  { ok := false, code := "VERSION_MISMATCH", message := some "Version obsolète",
    details := none, version := none, serverVersion := some 5 }

/-- A CHANGE_ROOM request whose `newData` also carries coordinates that
differ from `oldData`. -/
def exReqCR : ChangeRequest :=
  { id := "r1", type := "CHANGE_ROOM", sessionId := "S1",
    oldData := { jour := some "lundi", creneau := some 1, salle := some "R1",
                 formateur := none, groupe := none, module := none },
    newData := { jour := some "mardi", creneau := some 2, salle := some "R2",
                 formateur := none, groupe := none, module := none } }

/-- A MOVE request for the same session. -/
def exReqMove : ChangeRequest :=
  { id := "r2", type := "MOVE", sessionId := "S1",
    oldData := { jour := some "lundi", creneau := some 1, salle := some "R1",
                 formateur := none, groupe := none, module := none },
    newData := { jour := some "mercredi", creneau := some 3, salle := some "R3",
                 formateur := none, groupe := none, module := none } }

/-! ## Theorems -/

/-- The per-session conflict predicate, unfolded to a proposition. -/
theorem conflictsWith_eq_true_iff (expand : String → List String) (isVirtual : String → Bool)
    (c : Session) (t : Cell) (s : Session) :
    conflictsWith expand isVirtual c t s = true ↔
      (s.id ≠ c.id ∧ s.jour = t.day ∧ s.creneau = t.slot ∧
        ((s.salle = c.salle ∧ isVirtual c.salle = false ∧ isVirtual s.salle = false)
          ∨ s.formateur = c.formateur
          ∨ ∃ g ∈ expand c.groupe, g ∈ expand s.groupe)) := by
  unfold conflictsWith
  by_cases h1 : s.id = c.id
  · simp [h1]
  · rw [if_neg h1]
    by_cases h2 : s.jour ≠ t.day ∨ s.creneau ≠ t.slot
    · rw [if_pos h2]
      simp only [Bool.false_eq_true, false_iff, not_and]
      intro _ hj hc _
      rcases h2 with h | h
      · exact h hj
      · exact h hc
    · rw [if_neg h2]
      push_neg at h2
      obtain ⟨hj, hc⟩ := h2
      simp [h1, hj, hc, List.any_eq_true, and_assoc, or_assoc]

/-- C3: `hasConflict(candidate, targetCell)` returns a session exactly when
some session S with a different id sits at the target (day, slot) and
clashes on room (equal and both physical), teacher (equal), or group
(non-empty intersection of fusion expansions) — so fused groups conflict
even when the literal `groupe` strings differ — and returns `null`
otherwise. -/
theorem C3_hasConflict_iff (expand : String → List String) (isVirtual : String → Bool)
    (sessions : List Session) (c : Session) (t : Cell) :
    (hasConflict expand isVirtual sessions c t).isSome ↔
      ∃ s ∈ sessions, s.id ≠ c.id ∧ s.jour = t.day ∧ s.creneau = t.slot ∧
        ((s.salle = c.salle ∧ isVirtual c.salle = false ∧ isVirtual s.salle = false)
          ∨ s.formateur = c.formateur
          ∨ ∃ g ∈ expand c.groupe, g ∈ expand s.groupe) := by
  unfold hasConflict
  rw [List.find?_isSome]
  constructor
  · rintro ⟨s, hs, hp⟩
    exact ⟨s, hs, (conflictsWith_eq_true_iff expand isVirtual c t s).mp hp⟩
  · rintro ⟨s, hs, hp⟩
    exact ⟨s, hs, (conflictsWith_eq_true_iff expand isVirtual c t s).mpr hp⟩

/-- C9: `applyMoveLocal` keeps length and order, rewrites exactly the
`jour`/`creneau`/`salle` fields of every session whose id matches (all
other fields untouched), leaves non-matching sessions unchanged, and is
the identity when no session has the id. -/
theorem C9_applyMoveLocal_frame (sessions : List Session) (sessionId toJour : String)
    (toCreneau : Nat) (toSalle : String) :
    (applyMoveLocal sessions sessionId toJour toCreneau toSalle).length = sessions.length
    ∧ (∀ i : Nat, (applyMoveLocal sessions sessionId toJour toCreneau toSalle)[i]?
        = (sessions[i]?).map (fun s =>
            if s.id = sessionId
            then { s with jour := toJour, creneau := toCreneau, salle := toSalle }
            else s))
    ∧ ((∀ s ∈ sessions, s.id ≠ sessionId) →
        applyMoveLocal sessions sessionId toJour toCreneau toSalle = sessions) := by
  refine ⟨by simp [applyMoveLocal], fun i => by simp [applyMoveLocal, List.getElem?_map], fun h => ?_⟩
  unfold applyMoveLocal
  have hcongr : sessions.map (fun s =>
      if s.id = sessionId
      then { s with jour := toJour, creneau := toCreneau, salle := toSalle }
      else s) = sessions.map id :=
    List.map_congr_left (fun a ha => by simp [h a ha])
  simpa using hcongr

/-- Witness for C9 at a concrete input with no matching id. -/
theorem C9_applyMoveLocal_frame_witness :
    applyMoveLocal [exOcc] "S1" "mardi" 2 "R2" = [exOcc] :=
  (C9_applyMoveLocal_frame [exOcc] "S1" "mardi" 2 "R2").2.2 (by decide)

/-- C1: for every move or delete whose dispatch throws (any failure body or
none at all), replaying the handler's reconciliation effects restores the
session list to the snapshot taken before the optimistic mutation, and the
trace contains exactly one command dispatch — no automatic retry.  (On
VERSION_MISMATCH a subsequent authoritative re-fetch is additionally
triggered; that is claim C2.) -/
theorem C1_rollback_no_retry (st : ScheduleState) (cid : String) (args : MoveArgs)
    (sessionId : String) (body : Option ErrorBody) (msg : Option String) :
    ((applyEffects st (moveSessionDnD st cid args (.thrown body msg)).1).sessions = st.sessions
      ∧ dispatchCount (moveSessionDnD st cid args (.thrown body msg)).1 = 1)
    ∧ ((applyEffects st (deleteSessionDnD st cid sessionId (.thrown body msg)).1).sessions = st.sessions
      ∧ dispatchCount (deleteSessionDnD st cid sessionId (.thrown body msg)).1 = 1) := by
  rcases body with _ | b
  · simp [moveSessionDnD, deleteSessionDnD, applyEffects, applyEffect, dispatchCount]
  · by_cases hok : b.ok = false <;> by_cases hvm : b.code = "VERSION_MISMATCH" <;>
      simp [moveSessionDnD, deleteSessionDnD, applyEffects, applyEffect, dispatchCount, hok, hvm]

/-- C2: a dispatch failure with an informative body (`ok:false`) rolls the
session list back to the pre-mutation snapshot for both move and delete,
and the `fetchData()` re-fetch (a fresh `GET /api/timetable`) is issued
exactly when the body's code is `VERSION_MISMATCH`. -/
theorem C2_version_mismatch_refetch (st : ScheduleState) (cid : String) (args : MoveArgs)
    (sessionId : String) (b : ErrorBody) (msg : Option String) (hok : b.ok = false) :
    ((applyEffects st (moveSessionDnD st cid args (.thrown (some b) msg)).1).sessions = st.sessions
      ∧ refetchIssued (moveSessionDnD st cid args (.thrown (some b) msg)).1
          = (b.code == "VERSION_MISMATCH"))
    ∧ ((applyEffects st (deleteSessionDnD st cid sessionId (.thrown (some b) msg)).1).sessions = st.sessions
      ∧ refetchIssued (deleteSessionDnD st cid sessionId (.thrown (some b) msg)).1
          = (b.code == "VERSION_MISMATCH")) := by
  by_cases hvm : b.code = "VERSION_MISMATCH" <;>
    simp [moveSessionDnD, deleteSessionDnD, applyEffects, applyEffect, refetchIssued, hok, hvm]

/-- Witness for C2 at a concrete VERSION_MISMATCH rejection. -/
theorem C2_version_mismatch_refetch_witness :
    ((applyEffects exSt (moveSessionDnD exSt "cmd1" exArgs (.thrown (some exBodyVM) none)).1).sessions
        = exSt.sessions
      ∧ refetchIssued (moveSessionDnD exSt "cmd1" exArgs (.thrown (some exBodyVM) none)).1
          = (exBodyVM.code == "VERSION_MISMATCH"))
    ∧ ((applyEffects exSt (deleteSessionDnD exSt "cmd2" "S1" (.thrown (some exBodyVM) none)).1).sessions
        = exSt.sessions
      ∧ refetchIssued (deleteSessionDnD exSt "cmd2" "S1" (.thrown (some exBodyVM) none)).1
          = (exBodyVM.code == "VERSION_MISMATCH")) :=
  C2_version_mismatch_refetch exSt "cmd1" exArgs "S1" exBodyVM none (by decide)

/-- C6 counterexample: a rejection whose informative body carries
`version = 5` leaves the stored version at its previous value 1 — the
handler does not adopt the server-returned version on failure. -/
theorem C6_counterexample :
    exBodyConflict.ok = false
    ∧ exBodyConflict.version = some 5
    ∧ exSt.version = 1
    ∧ (applyEffects exSt
        (moveSessionDnD exSt "cmd1" exArgs (.thrown (some exBodyConflict) none)).1).version = 1
    ∧ (1 : Nat) ≠ 5 := by decide

/-- C6 (amended): after a successful dispatch the stored version becomes the
success response's version (move and delete alike); after any failed
dispatch the handler leaves the stored version unchanged — a version
carried by the rejection body is not adopted, and only the
VERSION_MISMATCH re-fetch (C2) later replaces it with the fetched value. -/
theorem C6_version_adoption_amended (st : ScheduleState) (cid : String) (args : MoveArgs)
    (sessionId : String) (resSessions : List Session) (resVersion : Nat)
    (warnings : List String) (body : Option ErrorBody) (msg : Option String) :
    ((applyEffects st (moveSessionDnD st cid args
        (.success resSessions resVersion warnings)).1).version = resVersion)
    ∧ ((applyEffects st (deleteSessionDnD st cid sessionId
        (.success resSessions resVersion warnings)).1).version = resVersion)
    ∧ ((applyEffects st (moveSessionDnD st cid args (.thrown body msg)).1).version = st.version)
    ∧ ((applyEffects st (deleteSessionDnD st cid sessionId
        (.thrown body msg)).1).version = st.version) := by
  refine ⟨by simp [moveSessionDnD, applyEffects, applyEffect],
          by simp [deleteSessionDnD, applyEffects, applyEffect], ?_, ?_⟩
  · rcases body with _ | b
    · simp [moveSessionDnD, applyEffects, applyEffect]
    · by_cases hok : b.ok = false <;> by_cases hvm : b.code = "VERSION_MISMATCH" <;>
        simp [moveSessionDnD, applyEffects, applyEffect, hok, hvm]
  · rcases body with _ | b
    · simp [deleteSessionDnD, applyEffects, applyEffect]
    · by_cases hvm : b.code = "VERSION_MISMATCH" <;>
        simp [deleteSessionDnD, applyEffects, applyEffect, hvm]

/-- C10: dropping a session on the cell it already occupies is a no-op in
the main grid: the handler returns `noop` whatever the conflict oracle and
whatever the room-availability response would have been. -/
theorem C10_same_cell_noop (conflictCheck : Session → Cell → Option Session)
    (roomsApi : Except String RoomsResponse) (session : Session) (day : String) (slot : Nat)
    (h : session.jour = day ∧ session.creneau = slot) :
    scheduleGridDrop false false conflictCheck roomsApi session day slot = .noop := by
  simp [scheduleGridDrop, h.1, h.2]

/-- Witness for C10 on a concrete session dropped onto its own cell. -/
theorem C10_same_cell_noop_witness :
    scheduleGridDrop false false (fun _ _ => none) (.ok { availableRooms := some [] })
      exCand2 "lundi" 1 = .noop :=
  C10_same_cell_noop (fun _ _ => none) (.ok { availableRooms := some [] })
    exCand2 "lundi" 1 ⟨rfl, rfl⟩

/-- C4: the precheck misses fusion-only group conflicts.  At a concrete
input, `hasConflict` reports a conflicting session whose group shares a
fused member (`G1 ∈ FAB`) with the candidate while the literal `groupe`
strings and the teachers differ; the main-grid drop handler nevertheless
proceeds past the precheck to room resolution and dispatches a direct
move, and the virtual grid opens the room prompt — neither aborts with the
group-busy message the claim requires. -/
theorem C4_fusion_group_precheck_gap :
    hasConflict expandFus isVirtNever exSessionsFus exCand { day := "mardi", slot := 1 }
        = some exOther
    ∧ exOther.groupe ≠ exCand.groupe
    ∧ exOther.formateur ≠ exCand.formateur
    ∧ "G1" ∈ expandFus exCand.groupe
    ∧ "G1" ∈ expandFus exOther.groupe
    ∧ scheduleGridDrop false false (hasConflict expandFus isVirtNever exSessionsFus)
        (.ok { availableRooms := some ["R1", "R2"] }) exCand "mardi" 1
        = .directMove "mardi" 1 "R1"
    ∧ virtualScheduleGridDrop false (hasConflict expandFus isVirtNever exSessionsFus)
        (.ok { availableRooms := some ["R1", "R2"] }) exCand "mardi" 1
        = .promptRooms ["R1", "R2"]
    ∧ DropAction.directMove "mardi" 1 "R1" ≠ .abortGroupBusy := by decide

/-- C5 counterexample: with a room-only conflict reported at the target
cell and the session's current room listed among the backend's available
rooms, the main grid dispatches a direct move instead of showing the
room-choice prompt the claim requires. -/
theorem C5_counterexample :
    hasConflict expandId isVirtNever exSessions2 exCand2 { day := "mardi", slot := 2 }
        = some exOcc
    ∧ exOcc.salle = exCand2.salle
    ∧ exOcc.formateur ≠ exCand2.formateur
    ∧ exOcc.groupe ≠ exCand2.groupe
    ∧ scheduleGridDrop false false (hasConflict expandId isVirtNever exSessions2)
        (.ok { availableRooms := some ["R1", "R2"] }) exCand2 "mardi" 2
        = .directMove "mardi" 2 "R1"
    ∧ DropAction.directMove "mardi" 2 "R1" ≠ .promptRooms ["R1", "R2"] := by decide

/-- C5 (amended): after a passed teacher/group precheck, zero available
rooms abort the drop in both grids with no command sent; otherwise the
main grid moves directly iff the current room is among the returned
rooms (regardless of any room-level conflict), while the virtual grid
moves directly iff the current room is among the returned rooms AND no
conflict was reported; in every remaining case the room prompt lists
exactly the returned rooms. -/
theorem C5_room_resolution_amended (conflictCheck : Session → Cell → Option Session)
    (api : RoomsResponse) (session : Session) (day : String) (slot : Nat)
    (hcell : ¬(session.jour = day ∧ session.creneau = slot))
    (honline : isOnlineSession session = false)
    (hpass : teacherGroupPass (conflictCheck session { day := day, slot := slot }) session) :
    (api.availableRooms.getD [] = [] →
      scheduleGridDrop false false conflictCheck (.ok api) session day slot = .abortNoRoom
      ∧ virtualScheduleGridDrop false conflictCheck (.ok api) session day slot = .abortNoRoom)
    ∧ (api.availableRooms.getD [] ≠ [] →
      (scheduleGridDrop false false conflictCheck (.ok api) session day slot
        = if (api.availableRooms.getD []).contains session.salle
          then .directMove day slot session.salle
          else .promptRooms (api.availableRooms.getD []))
      ∧ (virtualScheduleGridDrop false conflictCheck (.ok api) session day slot
        = if (api.availableRooms.getD []).contains session.salle
              ∧ conflictCheck session { day := day, slot := slot } = none
          then .directMove day slot session.salle
          else .promptRooms (api.availableRooms.getD []))) := by
  have hbeq : (session.jour == day && session.creneau == slot) = false := by
    rw [Bool.eq_false_iff]
    simp only [ne_eq, Bool.and_eq_true, beq_iff_eq]
    exact hcell
  constructor
  · intro hempty
    rcases hconf : conflictCheck session { day := day, slot := slot } with _ | c
    · simp [scheduleGridDrop, virtualScheduleGridDrop, hbeq, honline, hconf, hempty]
    · obtain ⟨hf, hg⟩ := hpass c hconf
      simp [scheduleGridDrop, virtualScheduleGridDrop, hbeq, honline, hconf, hempty, hf, hg]
  · intro hne
    have hlen : ¬(api.availableRooms.getD []).length = 0 := by
      simpa [List.length_eq_zero] using hne
    rcases hconf : conflictCheck session { day := day, slot := slot } with _ | c
    · by_cases hct : (api.availableRooms.getD []).contains session.salle <;>
        simp [scheduleGridDrop, virtualScheduleGridDrop, hbeq, honline, hconf, hlen, hct]
    · obtain ⟨hf, hg⟩ := hpass c hconf
      by_cases hct : (api.availableRooms.getD []).contains session.salle <;>
        simp [scheduleGridDrop, virtualScheduleGridDrop, hbeq, honline, hconf, hlen, hct, hf, hg]

/-- Witness for C5 (amended): zero available rooms abort both grids. -/
theorem C5_room_resolution_amended_witness :
    scheduleGridDrop false false (fun _ _ => none) (.ok { availableRooms := some [] })
        exCand2 "mardi" 2 = .abortNoRoom
    ∧ virtualScheduleGridDrop false (fun _ _ => none) (.ok { availableRooms := some [] })
        exCand2 "mardi" 2 = .abortNoRoom :=
  (C5_room_resolution_amended (fun _ _ => none) { availableRooms := some [] }
    exCand2 "mardi" 2 (by decide) (by decide) (fun c h => nomatch h)).1 rfl

/-- C7 counterexample: in the virtual grid, dropping an online (TEAMS)
session is a complete no-op — no move command is dispatched at all,
contradicting the claim that every online drop dispatches a move keeping
the virtual room. -/
theorem C7_counterexample :
    isOnlineSession exTeams = true
    ∧ virtualScheduleGridDrop false (fun _ _ => none)
        (.ok { availableRooms := some ["R1"] }) exTeams "mardi" 2 = .noop
    ∧ DropAction.noop ≠ .directMove "mardi" 2 "TEAMS" := by decide

/-- C7 (amended): in the main grid an online (TEAMS-room) session that
passes the teacher/group precheck is moved directly keeping its virtual
room, with a decision independent of any room-availability response (no
query, no prompt); in the virtual grid a drop of an online session is
instead rejected outright as a no-op. -/
theorem C7_online_bypass_amended (conflictCheck : Session → Cell → Option Session)
    (roomsApi roomsApi2 : Except String RoomsResponse) (session : Session)
    (day : String) (slot : Nat)
    (honline : isOnlineSession session = true)
    (hcell : ¬(session.jour = day ∧ session.creneau = slot))
    (hpass : teacherGroupPass (conflictCheck session { day := day, slot := slot }) session) :
    scheduleGridDrop false false conflictCheck roomsApi session day slot
        = .directMove day slot session.salle
    ∧ scheduleGridDrop false false conflictCheck roomsApi session day slot
        = scheduleGridDrop false false conflictCheck roomsApi2 session day slot
    ∧ virtualScheduleGridDrop false conflictCheck roomsApi session day slot = .noop := by
  have hbeq : (session.jour == day && session.creneau == slot) = false := by
    rw [Bool.eq_false_iff]
    simp only [ne_eq, Bool.and_eq_true, beq_iff_eq]
    exact hcell
  rcases hconf : conflictCheck session { day := day, slot := slot } with _ | c
  · simp [scheduleGridDrop, virtualScheduleGridDrop, hbeq, honline, hconf]
  · obtain ⟨hf, hg⟩ := hpass c hconf
    simp [scheduleGridDrop, virtualScheduleGridDrop, hbeq, honline, hconf, hf, hg]

/-- Witness for C7 (amended) on a concrete TEAMS session. -/
theorem C7_online_bypass_amended_witness :
    scheduleGridDrop false false (fun _ _ => none) (.ok { availableRooms := some [] })
        exTeams "mardi" 2 = .directMove "mardi" 2 exTeams.salle
    ∧ scheduleGridDrop false false (fun _ _ => none) (.ok { availableRooms := some [] })
        exTeams "mardi" 2
        = scheduleGridDrop false false (fun _ _ => none) (.error "down") exTeams "mardi" 2
    ∧ virtualScheduleGridDrop false (fun _ _ => none) (.ok { availableRooms := some [] })
        exTeams "mardi" 2 = .noop :=
  C7_online_bypass_amended (fun _ _ => none) (.ok { availableRooms := some [] })
    (.error "down") exTeams "mardi" 2 (by decide) (by decide) (fun c h => nomatch h)

/-- Evaluation of the uppercase model on the MOVE literal. -/
theorem jsToUpper_MOVE : jsToUpper "MOVE" = "MOVE" := rfl

/-- Evaluation of the uppercase model on the CHANGE_ROOM literal. -/
theorem jsToUpper_CHANGE_ROOM : jsToUpper "CHANGE_ROOM" = "CHANGE_ROOM" := rfl

/-- C8 counterexample: reconciling a CHANGE_ROOM request whose `newData`
carries coordinates shows the ghost's day and slot are taken from
`newData` (mardi, 2), not from `oldData` (lundi, 1) as the claim states;
the base session is still tagged MOVED_AWAY. -/
theorem C8_counterexample :
    (buildVirtualFromRequests [exCand2] [exReqCR]).1
        = [{ session := exCand2, virtualState := some .MOVED_AWAY, virtualRequestId := some "r1" }]
    ∧ ((buildVirtualFromRequests [exCand2] [exReqCR]).2.map (fun g => (g.jour, g.creneau, g.salle)))
        = [(some "mardi", some 2, some "R2")]
    ∧ exReqCR.oldData.jour = some "lundi"
    ∧ exReqCR.oldData.creneau = some 1
    ∧ (some "mardi" : Option String) ≠ some "lundi" := by decide

/-- C8 (amended): for a MOVE or CHANGE_ROOM request whose referenced base
session is present, reconciliation tags that base session MOVED_AWAY and
appends exactly one PROPOSED_DESTINATION ghost whose day, slot and room
all follow the same fallback chain newData → oldData → base session — for
CHANGE_ROOM as well as MOVE; the two types differ only in the ghost's
non-coordinate fields (CHANGE_ROOM ignores newData there). -/
theorem C8_ghost_fallback_amended (base : List TaggedSession) (extra : List Ghost)
    (r : ChangeRequest) (ts0 : TaggedSession)
    (htype : r.type = "MOVE" ∨ r.type = "CHANGE_ROOM")
    (hfind : base.find? (fun ts => ts.session.id == r.sessionId) = some ts0) :
    (applyRequest (base, extra) r).1
      = base.map (fun ts =>
          if ts.session.id == r.sessionId
          then { ts with virtualState := some .MOVED_AWAY, virtualRequestId := some r.id }
          else ts)
    ∧ (applyRequest (base, extra) r).2.dropLast = extra
    ∧ ((applyRequest (base, extra) r).2.getLast?).map
          (fun g => (g.virtualState, g.jour, g.creneau, g.salle))
        = some (.PROPOSED_DESTINATION,
                r.newData.jour <|> r.oldData.jour <|> some ts0.session.jour,
                r.newData.creneau <|> r.oldData.creneau <|> some ts0.session.creneau,
                r.newData.salle <|> r.oldData.salle <|> some ts0.session.salle) := by
  rcases htype with h | h <;>
    exact ⟨by simp [applyRequest, h, jsToUpper_MOVE, jsToUpper_CHANGE_ROOM, tagBase, hfind],
           by simp [applyRequest, h, jsToUpper_MOVE, jsToUpper_CHANGE_ROOM, hfind],
           by simp [applyRequest, h, jsToUpper_MOVE, jsToUpper_CHANGE_ROOM, hfind]⟩

/-- Witness for C8 (amended) on a concrete MOVE request. -/
theorem C8_ghost_fallback_amended_witness :
    (applyRequest ([{ session := exCand2, virtualState := none, virtualRequestId := none }], []) exReqMove).1
      = [{ session := exCand2, virtualState := none, virtualRequestId := none }].map (fun ts =>
          if ts.session.id == exReqMove.sessionId
          then { ts with virtualState := some .MOVED_AWAY, virtualRequestId := some exReqMove.id }
          else ts)
    ∧ (applyRequest ([{ session := exCand2, virtualState := none, virtualRequestId := none }], []) exReqMove).2.dropLast = []
    ∧ ((applyRequest ([{ session := exCand2, virtualState := none, virtualRequestId := none }], []) exReqMove).2.getLast?).map
          (fun g => (g.virtualState, g.jour, g.creneau, g.salle))
        = some (.PROPOSED_DESTINATION,
                exReqMove.newData.jour <|> exReqMove.oldData.jour <|> some exCand2.jour,
                exReqMove.newData.creneau <|> exReqMove.oldData.creneau <|> some exCand2.creneau,
                exReqMove.newData.salle <|> exReqMove.oldData.salle <|> some exCand2.salle) :=
  C8_ghost_fallback_amended
    [{ session := exCand2, virtualState := none, virtualRequestId := none }] [] exReqMove
    { session := exCand2, virtualState := none, virtualRequestId := none }
    (Or.inl rfl) (by decide)

end EDT
